import Mathlib

/-!
Verification of the record-reconciliation and rendering engine of
`src/export.py` (class `MarkdownChatFormatter`, class `ChatExporter`).

The embedding models JSON-decoded Python values as the inductive `JVal`.
A raw store record is a pair of a key and an `Option JVal`: `some v` means
`json.loads` of the record's value succeeds and yields `v`, `none` means it
raises `json.JSONDecodeError`.  Python exceptions are modelled with
`Except PyErr`; the top-level `try/except` of `MarkdownChatFormatter.format`
turns any exception into the `None` result, modelled as `Option`.
Floating-point JSON numbers are not modelled (no claim touches them):
the embedded `json.loads` accepts integers only.
-/

/-- Outcome of Python `json.loads` applied to a JSON-decoded value: one of the
six JSON shapes, with numbers restricted to integers. -/
inductive JVal where
  | null
  | bool (b : Bool)
  | num (n : Int)
  | str (s : String)
  | arr (elems : List JVal)
  | obj (fields : List (String × JVal))
  deriving Repr

/-- Python exception classes that the embedded code can raise. -/
inductive PyErr where
  | keyError
  | typeError
  | attributeError
  | indexError
  | unboundLocalError
  | jsonDecodeError
  deriving Repr, DecidableEq

mutual
/-- Python `==` on JSON-decoded values (structural; the `1 == True` numeric
coercion of Python is not modelled, no record in any claim mixes them). -/
def jeq : JVal → JVal → Bool
  | .null, .null => true
  | .bool a, .bool b => a == b
  | .num a, .num b => a == b
  | .str a, .str b => a == b
  | .arr xs, .arr ys => jeqList xs ys
  | .obj fs, .obj gs => jeqFields fs gs
  | _, _ => false
/-- Elementwise `jeq` on lists. -/
def jeqList : List JVal → List JVal → Bool
  | [], [] => true
  | x :: xs, y :: ys => jeq x y && jeqList xs ys
  | _, _ => false
/-- Pairwise `jeq` on object field lists. -/
def jeqFields : List (String × JVal) → List (String × JVal) → Bool
  | [], [] => true
  | (k1, v1) :: fs, (k2, v2) :: gs => k1 == k2 && jeq v1 v2 && jeqFields fs gs
  | _, _ => false
end

mutual
/-- Python `repr` of a JSON-decoded value (quote-escaping of nested strings is
simplified to the common case; no claim inspects a repr of a quote). -/
def pyRepr : JVal → String
  | .null => "None"
  | .bool true => "True"
  | .bool false => "False"
  | .num n => toString n
  | .str s => String.singleton (Char.ofNat 39) ++ s ++ String.singleton (Char.ofNat 39)
  | .arr xs => "[" ++ pyReprList xs ++ "]"
  | .obj fs => "\x7b" ++ pyReprFields fs ++ "\x7d"
/-- Comma-separated reprs of list elements. -/
def pyReprList : List JVal → String
  | [] => ""
  | [x] => pyRepr x
  | x :: xs => pyRepr x ++ ", " ++ pyReprList xs
/-- Comma-separated reprs of object entries. -/
def pyReprFields : List (String × JVal) → String
  | [] => ""
  | [(k, v)] =>
    String.singleton (Char.ofNat 39) ++ k ++ String.singleton (Char.ofNat 39) ++ ": " ++ pyRepr v
  | (k, v) :: fs =>
    String.singleton (Char.ofNat 39) ++ k ++ String.singleton (Char.ofNat 39) ++ ": " ++ pyRepr v
      ++ ", " ++ pyReprFields fs
end

/-- Python `str()` of a JSON-decoded value, as used by f-string interpolation. -/
def pyStr : JVal → String
  | .str s => s
  | v => pyRepr v

/-- Python truthiness of a JSON-decoded value. -/
def truthy : JVal → Bool
  | .null => false
  | .bool b => b
  | .num n => n != 0
  | .str s => !s.isEmpty
  | .arr xs => !xs.isEmpty
  | .obj fs => !fs.isEmpty

/-- First field of an object field list with the given key (Python dicts hold
each key once; object literals in this file never repeat a key). -/
def lookupField (fs : List (String × JVal)) (k : String) : Option JVal :=
  (fs.find? (fun p => p.1 == k)).map (·.2)

/-- Dictionary lookup on a value known to be a dict; `none` on non-dicts. -/
def objGet (v : JVal) (k : String) : Option JVal :=
  match v with
  | .obj fs => lookupField fs k
  | _ => none

/-- Python `d.get(k, default)` on a dict value. -/
def objGetD (v : JVal) (k : String) (d : JVal) : JVal :=
  (objGet v k).getD d

/-- Membership test `k in d` for a value the code has already checked to be a
dict (callers guarantee `isinstance(d, dict)`). -/
def dictHas (v : JVal) (k : String) : Bool :=
  (objGet v k).isSome

/-- Python test `isinstance(v, dict)`. -/
def isDict : JVal → Bool
  | .obj _ => true
  | _ => false

/-- Python test `isinstance(v, list)`. -/
def isList : JVal → Bool
  | .arr _ => true
  | _ => false

/-- Python subscript `v[k]` with a string key: only dicts succeed; a dict
without the key raises `KeyError`, anything else raises `TypeError`. -/
def pySubscript (v : JVal) (k : String) : Except PyErr JVal :=
  match v with
  | .obj fs =>
    match lookupField fs k with
    | some x => .ok x
    | none => .error .keyError
  | _ => .error .typeError

/-- Python subscript `v[0]`: first list element (`IndexError` when empty),
first character of a string, `KeyError` on a dict, `TypeError` otherwise. -/
def pyIndexZero (v : JVal) : Except PyErr JVal :=
  match v with
  | .arr (x :: _) => .ok x
  | .arr [] => .error .indexError
  | .str s =>
    match s.toList with
    | c :: _ => .ok (.str (String.singleton c))
    | [] => .error .indexError
  | .obj _ => .error .keyError
  | _ => .error .typeError

/-- Remainder of the character list after the first occurrence of the
pattern; `none` when the pattern never occurs. -/
def findTail (pat : List Char) : List Char → Option (List Char)
  | [] => if pat.isEmpty then some [] else none
  | c :: cs =>
    if pat.isPrefixOf (c :: cs) then some ((c :: cs).drop pat.length)
    else findTail pat cs

/-- Substring test, Python `sub in s` for strings (empty needle matches). -/
def strContains (s sub : String) : Bool :=
  (findTail sub.toList s.toList).isSome

/-- Python `s.startswith(pre)`. -/
def strStartsWith (s pre : String) : Bool :=
  pre.toList.isPrefixOf s.toList

/-- Python `s.endswith(suf)`. -/
def strEndsWith (s suf : String) : Bool :=
  suf.toList.reverse.isPrefixOf s.toList.reverse

/-- Lexicographic comparison of character lists by code point, the order
Python uses on strings. -/
def charListLt : List Char → List Char → Bool
  | [], [] => false
  | [], _ :: _ => true
  | _ :: _, [] => false
  | a :: as, b :: bs =>
    if a.toNat < b.toNat then true
    else if a.toNat == b.toNat then charListLt as bs
    else false

/-- Python `<` on strings. -/
def strLtB (a b : String) : Bool :=
  charListLt a.toList b.toList

/-- Python membership `needle in v` for a string needle: key lookup on dicts,
element equality on lists, substring test on strings, `TypeError` otherwise. -/
def pyIn (needle : String) (v : JVal) : Except PyErr Bool :=
  match v with
  | .obj fs => .ok ((lookupField fs needle).isSome)
  | .arr xs => .ok (xs.any (fun x => jeq x (.str needle)))
  | .str s => .ok (strContains s needle)
  | _ => .error .typeError

/-- Python iteration over a value: list elements, string characters, dict keys;
`TypeError` for the non-iterable shapes. -/
def pyIter (v : JVal) : Except PyErr (List JVal) :=
  match v with
  | .arr xs => .ok xs
  | .str s => .ok (s.toList.map (fun c => .str (String.singleton c)))
  | .obj fs => .ok (fs.map (fun p => JVal.str p.1))
  | _ => .error .typeError

/-- Whitespace characters recognised by Python `str.strip()` (ASCII range). -/
def isPySpace (c : Char) : Bool :=
  c == ' ' || c == '\t' || c == '\n' || c == '\r' || c == Char.ofNat 11 || c == Char.ofNat 12

/-- Python `s.strip()` on the character list. -/
def pyStripChars (cs : List Char) : List Char :=
  ((cs.dropWhile isPySpace).reverse.dropWhile isPySpace).reverse

/-- Truthiness of `s.strip()`: does stripping whitespace leave anything. -/
def stripTruthy (s : String) : Bool :=
  !(pyStripChars s.toList).isEmpty

/-- Python `sep.join(parts)`. -/
def pyJoin (sep : String) : List String → String
  | [] => ""
  | [x] => x
  | x :: xs => x ++ sep ++ pyJoin sep xs

/-- Python `os.path.join(a, b)` for the shapes the exporter produces. -/
def pyPathJoin (a b : String) : String :=
  if strStartsWith b "/" then b
  else if a.isEmpty then b
  else if strEndsWith a "/" then a ++ b
  else a ++ "/" ++ b

/-- Trailing segment of a key after the last colon: `key.split(':')[-1]`. -/
def lastColonSegment (k : String) : String :=
  String.mk ((k.toList.reverse.takeWhile (fun c => c != ':')).reverse)

/-! ### A small JSON parser, the model of `json.loads` on embedded strings

Only `_extract_text_from_user_bubble` applies `json.loads` to a string taken
from inside an already-decoded record (the `initText` field).  The parser
below covers the grammar those strings use: null, booleans, integers,
strings with the single-character escapes, arrays and objects, with
whitespace.  Non-integer numbers and unicode escapes are rejected (treated
as a parse failure; no claim exercises them). -/

/-- Skip JSON whitespace. -/
def jpSkipWs : List Char → List Char
  | c :: cs => if c == ' ' || c == '\t' || c == '\n' || c == '\r' then jpSkipWs cs else c :: cs
  | [] => []

/-- Decode a single-character JSON string escape. -/
def jpEsc (c : Char) : Option Char :=
  if c == Char.ofNat 34 then some (Char.ofNat 34)
  else if c == Char.ofNat 92 then some (Char.ofNat 92)
  else if c == '/' then some '/'
  else if c == 'n' then some '\n'
  else if c == 't' then some '\t'
  else if c == 'r' then some '\r'
  else if c == 'b' then some (Char.ofNat 8)
  else if c == 'f' then some (Char.ofNat 12)
  else none

/-- Parse the remainder of a JSON string after the opening quote. -/
def jpStr : Nat → List Char → Option (String × List Char)
  | 0, _ => none
  | _ + 1, [] => none
  | fuel + 1, c :: rest =>
    if c == Char.ofNat 34 then some ("", rest)
    else if c == Char.ofNat 92 then
      match rest with
      | [] => none
      | e :: rest2 =>
        match jpEsc e with
        | none => none
        | some ec =>
          match jpStr fuel rest2 with
          | some (s, r) => some (String.singleton ec ++ s, r)
          | none => none
    else
      match jpStr fuel rest with
      | some (s, r) => some (String.singleton c ++ s, r)
      | none => none

/-- Parse a run of decimal digits. -/
def jpDigits : List Char → List Char × List Char
  | c :: cs =>
    if c.isDigit then
      let (ds, r) := jpDigits cs
      (c :: ds, r)
    else ([], c :: cs)
  | [] => ([], [])

/-- Numeric value of a digit run. -/
def jpDigitsVal (ds : List Char) : Int :=
  (ds.foldl (fun acc c => acc * 10 + (c.toNat - Char.toNat '0')) 0 : Nat)

/-- Parse a JSON integer; fractional or exponent forms are rejected. -/
def jpNum (cs : List Char) : Option (JVal × List Char) :=
  let (neg, cs1) := match cs with
    | c :: r => if c == '-' then (true, r) else (false, cs)
    | [] => (false, cs)
  match jpDigits cs1 with
  | ([], _) => none
  | (ds, r) =>
    match r with
    | c :: _ =>
      if c == '.' || c == 'e' || c == 'E' then none
      else some (.num (if neg then -(jpDigitsVal ds) else jpDigitsVal ds), r)
    | [] => some (.num (if neg then -(jpDigitsVal ds) else jpDigitsVal ds), [])

mutual
/-- Parse one JSON value. -/
def jpVal : Nat → List Char → Option (JVal × List Char)
  | 0, _ => none
  | fuel + 1, cs =>
    match jpSkipWs cs with
    | [] => none
    | c :: rest =>
      if c == Char.ofNat 34 then
        match jpStr fuel rest with
        | some (s, r) => some (.str s, r)
        | none => none
      else if c == Char.ofNat 123 then jpObjFields fuel (jpSkipWs rest) true
      else if c == Char.ofNat 91 then jpArrElems fuel (jpSkipWs rest) true
      else if c == 't' then
        match rest with
        | 'r' :: 'u' :: 'e' :: r => some (.bool true, r)
        | _ => none
      else if c == 'f' then
        match rest with
        | 'a' :: 'l' :: 's' :: 'e' :: r => some (.bool false, r)
        | _ => none
      else if c == 'n' then
        match rest with
        | 'u' :: 'l' :: 'l' :: r => some (.null, r)
        | _ => none
      else jpNum (c :: rest)

/-- Parse array elements after the opening bracket (`first` marks the state
before any element has been read, where `]` may close immediately). -/
def jpArrElems : Nat → List Char → Bool → Option (JVal × List Char)
  | 0, _, _ => none
  | _ + 1, [], _ => none
  | fuel + 1, c :: rest, first =>
    if first && c == Char.ofNat 93 then some (.arr [], rest)
    else
      match jpVal fuel (c :: rest) with
      | none => none
      | some (v, r) =>
        match jpSkipWs r with
        | c2 :: r2 =>
          if c2 == Char.ofNat 93 then some (.arr [v], r2)
          else if c2 == ',' then
            match jpArrElems fuel (jpSkipWs r2) false with
            | some (.arr vs, r3) => some (.arr (v :: vs), r3)
            | _ => none
          else none
        | [] => none

/-- Parse object members after the opening brace. -/
def jpObjFields : Nat → List Char → Bool → Option (JVal × List Char)
  | 0, _, _ => none
  | _ + 1, [], _ => none
  | fuel + 1, c :: rest, first =>
    if first && c == Char.ofNat 125 then some (.obj [], rest)
    else if c == Char.ofNat 34 then
      match jpStr fuel rest with
      | none => none
      | some (k, r) =>
        match jpSkipWs r with
        | ':' :: r2 =>
          match jpVal fuel r2 with
          | none => none
          | some (v, r3) =>
            match jpSkipWs r3 with
            | c2 :: r4 =>
              if c2 == Char.ofNat 125 then some (.obj [(k, v)], r4)
              else if c2 == ',' then
                match jpObjFields fuel (jpSkipWs r4) false with
                | some (.obj fs, r5) => some (.obj ((k, v) :: fs), r5)
                | _ => none
              else none
            | [] => none
        | _ => none
    else none
end

/-- Python `json.loads` on a string: whole-input parse or decode failure. -/
def parseJson (s : String) : Option JVal :=
  match jpVal (s.length + 2) s.toList with
  | some (v, rest) => if (jpSkipWs rest).isEmpty then some v else none
  | none => none

/-- Python `json.loads` applied to a JSON-decoded value: strings are parsed,
anything else raises `TypeError`. -/
def jsonLoadsVal (v : JVal) : Except PyErr JVal :=
  match v with
  | .str s =>
    match parseJson s with
    | some r => .ok r
    | none => .error .jsonDecodeError
  | _ => .error .typeError

/-! ### The code-fence rewrite of `_format_ai_bubble`

Model of `re.sub(r'```python:[^\n]+', '```python', raw_text)`: every
occurrence of three backticks, `python:` and at least one following
non-newline character is replaced by three backticks and `python`, the
path tail dropped.  The scan is left to right and non-overlapping. -/

/-- Pattern characters of the fence-with-path opener. -/
def fencePat : List Char := "```python:".toList

/-- One left-to-right pass of the substitution, on fuel (the fuel is the
remaining length, every step consumes at least one character). -/
def subPyPathAux : Nat → List Char → List Char
  | 0, _ => []
  | _ + 1, [] => []
  | fuel + 1, c :: rest =>
    if fencePat.isPrefixOf (c :: rest) then
      let after := (c :: rest).drop fencePat.length
      let run := after.takeWhile (fun ch => ch != '\n')
      if run.isEmpty then c :: subPyPathAux fuel rest
      else "```python".toList ++ subPyPathAux fuel (after.drop run.length)
    else c :: subPyPathAux fuel rest

/-- Python `re.sub(r'```python:[^\n]+', '```python', s)`. -/
def subPyPath (s : String) : String :=
  String.mk (subPyPathAux (s.length + 1) s.toList)

/-! ### User-text extraction (`MarkdownChatFormatter._extract_text_from_user_bubble`)

Lines 25-62 of `src/export.py`.  The branch order of the source is an
`if/elif` chain keyed on field presence (`"delegate" in bubble`, then
`"text"`, `"initText"`, `"rawText"`); a whole-body `try/except` turns any
exception into the sentinel string. -/

/-- Sentinel string the source emits when no user text can be found. -/
def noUserText : JVal := .str "[ERROR: no user text found]"

/-- Body of the inner `try` of the `initText` branch:
`json.loads(bubble["initText"])['root']['children'][0]['children'][0]['text']`. -/
def initTextLoad (i : JVal) : Except PyErr JVal := do
  let parsed ← jsonLoadsVal i
  let root ← pySubscript parsed "root"
  let ch ← pySubscript root "children"
  let c0 ← pyIndexZero ch
  let ch2 ← pySubscript c0 "children"
  let c00 ← pyIndexZero ch2
  pySubscript c00 "text"

/-- Branch chain of `_extract_text_from_user_bubble` before the outer
`except` is applied; mirrors lines 27-55 of the source. -/
def extractTextGo (bubble : JVal) : Except PyErr JVal :=
  match pyIn "delegate" bubble with
  | .error e => .error e
  | .ok true =>
    match pySubscript bubble "delegate" with
    | .error e => .error e
    | .ok d => if truthy d then pySubscript d "a" else .ok (.str "")
  | .ok false =>
    match pyIn "text" bubble with
    | .error e => .error e
    | .ok true =>
      match pySubscript bubble "text" with
      | .error e => .error e
      | .ok t => if truthy t then .ok t else .ok (.str "")
    | .ok false =>
      match pyIn "initText" bubble with
      | .error e => .error e
      | .ok true =>
        match pySubscript bubble "initText" with
        | .error e => .error e
        | .ok i =>
          if truthy i then
            -- inner try/except: any failure of the parse-and-descend
            -- becomes the sentinel
            match initTextLoad i with
            | .ok v => .ok v
            | .error _ => .ok noUserText
          else .ok (.str "")
      | .ok false =>
        match pyIn "rawText" bubble with
        | .error e => .error e
        | .ok true =>
          match pySubscript bubble "rawText" with
          | .error e => .error e
          | .ok r =>
            -- the source reads bubble['text'] here, a key that is absent on
            -- this branch of the elif chain, so the subscript raises KeyError
            if truthy r then pySubscript bubble "text" else .ok (.str "")
        | .ok false => .ok noUserText

/-- Model of `MarkdownChatFormatter._extract_text_from_user_bubble`: the
outer `try/except Exception` maps every raised exception to the sentinel. -/
def extractTextFromUserBubble (bubble : JVal) : JVal :=
  match extractTextGo bubble with
  | .ok v => v
  | .error _ => noUserText

/-! ### Bubble rendering (`_format_user_bubble`, `_format_ai_bubble`)

Lines 244-281 of `src/export.py`.  The filesystem is modelled as the list
of paths for which `os.path.exists` answers true.  At line 256 the source
reads `tab_image_dir` one line before its assignment, so the branch for an
existing image file raises `UnboundLocalError`; the copy never happens, and
no filesystem effect needs modelling. -/

/-- Selections block: `'\n'.join([s['text'] for s in bubble['selections']])`.
The comprehension runs all subscripts first; `join` then requires every
element to be a string. -/
def selectionsJoin (sel : JVal) : Except PyErr String := do
  let items ← pyIter sel
  let texts ← items.mapM (fun s => pySubscript s "text")
  let strs ← texts.mapM (fun t =>
    match t with
    | .str ts => Except.ok ts
    | _ => Except.error PyErr.typeError)
  pure (pyJoin "\n" strs)

/-- Image block of `_format_user_bubble` (lines 252-264): path lookup,
existence check, and the unbound-local slip on the existing-file branch. -/
def imagePart (bubble : JVal) (imageDir : Option String) (fs : List String)
    : Except PyErr (List String) :=
  if dictHas bubble "image" && imageDir.isSome then do
    let img ← pySubscript bubble "image"
    let ipath ← pySubscript img "path"
    let p ← match ipath with
      | .str s => Except.ok s
      | _ => Except.error PyErr.typeError
    if p ∈ fs then
      -- line 256: `new_image_path = os.path.join(tab_image_dir, ...)` precedes
      -- the assignment of `tab_image_dir` on line 257
      Except.error PyErr.unboundLocalError
    else
      pure ["[image]  \n![User Image]()"]
  else pure []

/-- Model of `MarkdownChatFormatter._format_user_bubble` (lines 244-276):
header, optional selections, optional image, optional text, and the
emptiness check `len(user_text) > 2`. -/
def formatUserBubble (bubble : JVal) (imageDir : Option String) (fs : List String)
    : Except PyErr (List String) := do
  let selParts ←
    if dictHas bubble "selections" && truthy (objGetD bubble "selections" .null) then do
      let s ← selectionsJoin (objGetD bubble "selections" .null)
      pure ["[selections]  \n" ++ s]
    else pure []
  let imgParts ← imagePart bubble imageDir fs
  let t := extractTextFromUserBubble bubble
  let textParts := if truthy t then ["[text]  \n" ++ pyStr t] else []
  let parts := ["## User:\n\n"] ++ selParts ++ imgParts ++ textParts ++ ["\n"]
  pure (if parts.length > 2 then parts else [])

/-- Model of `MarkdownChatFormatter._format_ai_bubble` (lines 278-281):
`bubble['rawText']` raises `KeyError` when the field is missing, and
`re.sub` requires a string argument. -/
def formatAiBubble (bubble : JVal) : Except PyErr (List String) := do
  let mt := objGetD bubble "modelType" (.str "Unknown")
  let rt ← pySubscript bubble "rawText"
  let raw ← match rt with
    | .str s => Except.ok (subPyPath s)
    | _ => Except.error PyErr.typeError
  pure ["## AI (" ++ pyStr mt ++ "):\n\n" ++ raw ++ "\n"]

/-- Per-bubble dispatch of `_format_aichat_tab`: `bubble['type']` is
subscripted (raising on non-dicts and missing keys), and bubbles typed
neither `user` nor `ai` contribute nothing. -/
def bubblesParts (imageDir : Option String) (fs : List String)
    : List JVal → Except PyErr (List String)
  | [] => .ok []
  | b :: bs => do
    let ty ← pySubscript b "type"
    let here ←
      if jeq ty (.str "user") then formatUserBubble b imageDir fs
      else if jeq ty (.str "ai") then formatAiBubble b
      else pure []
    let rest ← bubblesParts imageDir fs bs
    pure (here ++ rest)

/-- Model of `MarkdownChatFormatter._format_aichat_tab` (lines 195-205):
title from `tab.get('chatTitle', f'Chat {index}')` (an `AttributeError` on
non-dict tabs), then the bubble walk, joined with newlines. -/
def formatAichatTab (tab : JVal) (index : Nat) (imageDir : Option String)
    (fs : List String) : Except PyErr String := do
  let title ← match tab with
    | .obj tfs => Except.ok (lookupField tfs "chatTitle" |>.getD (.str ("Chat " ++ toString index)))
    | _ => Except.error PyErr.attributeError
  let bubbles ← pySubscript tab "bubbles"
  let items ← pyIter bubbles
  let parts ← bubblesParts imageDir fs items
  pure (pyJoin "\n" (["# Chat Transcript - " ++ pyStr title ++ "\n"] ++ parts))

/-! ### Composer reconciliation (`_format_composer_data`, lines 64-120)

Responses are re-parsed `(key, value)` pairs; the map from generation
identifier to response text is a Python dict, so a later record with the
same identifier overwrites the earlier entry in place. -/

/-- Python dict assignment `m[k] = v` on an association list: replace in
place when the key is present, append otherwise. -/
def dictInsert : List (JVal × JVal) → JVal → JVal → List (JVal × JVal)
  | [], k, v => [(k, v)]
  | (k0, v0) :: rest, k, v =>
    if jeq k0 k then (k0, v) :: rest else (k0, v0) :: dictInsert rest k v

/-- Identifier stored for one response record:
`data.get('generationUUID', key.split(':')[-1])`. -/
def respUuid (key : String) (data : JVal) : JVal :=
  match objGet data "generationUUID" with
  | some u => u
  | none => .str (lastColonSegment key)

/-- Response-map construction of lines 76-86: parse failures are skipped,
only dicts containing a `response` field contribute. -/
def buildResponseMap (responses : List (String × Option JVal)) : List (JVal × JVal) :=
  responses.foldl (fun m kv =>
    match kv.2 with
    | none => m
    | some data =>
      if isDict data && dictHas data "response" then
        dictInsert m (respUuid kv.1 data) (objGetD data "response" .null)
      else m) []

/-- Lookup in the response map (first binding; `dictInsert` keeps keys unique). -/
def rmLookup (m : List (JVal × JVal)) (u : JVal) : Option JVal :=
  (m.find? (fun p => jeq p.1 u)).map (·.2)

/-- Python membership `uuid in response_map`. -/
def rmContains (m : List (JVal × JVal)) (u : JVal) : Bool :=
  m.any (fun p => jeq p.1 u)

/-- Python subscript `response_map[uuid]` at a key known to be present. -/
def rmGet (m : List (JVal × JVal)) (u : JVal) : JVal :=
  (rmLookup m u).getD .null

/-- Stable insertion before the first element that is not below `x`; matches
the placement of Python's stable ascending sort. -/
def stableInsert (lt : α → α → Bool) (x : α) : List α → List α
  | [] => [x]
  | y :: ys => if lt y x then y :: stableInsert lt x ys else x :: y :: ys

/-- Stable ascending sort by a strict comparison; agrees with Python
`sorted` on the comparable inputs. -/
def stableSort (lt : α → α → Bool) : List α → List α
  | [] => []
  | x :: xs => stableInsert lt x (stableSort lt xs)

/-- Sort key of one prompt entry, `lambda x: x.get('unixMs', 0)`; the
attribute access raises on entries that are not dicts. -/
def promptSortKey (p : JVal) : Except PyErr JVal :=
  match p with
  | .obj pfs => .ok ((lookupField pfs "unixMs").getD (.num 0))
  | _ => .error .attributeError

/-- Numeric reading of a sort key (Python orders booleans as integers). -/
def keyNum (v : JVal) : Option Int :=
  match v with
  | .num n => some n
  | .bool b => some (if b then 1 else 0)
  | _ => none

/-- Numeric sort key of a prompt, with the source's default of 0. -/
def keyNumD (p : JVal) : Int :=
  (keyNum (objGetD p "unixMs" (.num 0))).getD 0

/-- String sort key of a prompt (used when every key is a string). -/
def keyStrD (p : JVal) : String :=
  match objGetD p "unixMs" (.num 0) with
  | .str s => s
  | _ => ""

/-- Python test `isinstance(v, str)`-shaped check on a sort key. -/
def isStr : JVal → Bool
  | .str _ => true
  | _ => false

/-- Lines 91-93: `if prompts and isinstance(prompts[0], dict) and 'unixMs'
in prompts[0]: prompts = sorted(prompts, key=lambda x: x.get('unixMs', 0))`.
Only the first entry decides whether to sort.  Python computes every key
first (raising `AttributeError` on non-dict entries), then compares: all
keys numeric or all keys strings sort stably ascending, a mixed list of
two or more raises `TypeError`. -/
def sortPrompts (prompts : List JVal) : Except PyErr (List JVal) :=
  match prompts with
  | [] => .ok []
  | p :: _ =>
    if isDict p && dictHas p "unixMs" then do
      let keys ← prompts.mapM promptSortKey
      if prompts.length ≤ 1 then pure prompts
      else if keys.all (fun k => (keyNum k).isSome) then
        pure (stableSort (fun a b => keyNumD a < keyNumD b) prompts)
      else if keys.all isStr then
        pure (stableSort (fun a b => strLtB (keyStrD a) (keyStrD b)) prompts)
      else .error .typeError
    else .ok prompts

/-- Generation-log scan of lines 112-118: the loop `break`s at the first
dict entry whose `generationUUID` equals the prompt's, emitting its
`textDescription` when it has one and nothing at all otherwise. -/
def scanGens (uuid : JVal) : List JVal → List String
  | [] => []
  | g :: gs =>
    if isDict g && jeq (objGetD g "generationUUID" .null) uuid then
      match objGet g "textDescription" with
      | some d => ["### Assistant\n", pyStr d ++ "\n\n"]
      | none => []
    else scanGens uuid gs

/-- Assistant turn for one prompt identifier: response map first, then the
generation log (lines 105-118). -/
def assistantFor (uuid : JVal) (rm : List (JVal × JVal)) (gens : List JVal) : List String :=
  if rmContains rm uuid then ["### Assistant\n", pyStr (rmGet rm uuid) ++ "\n\n"]
  else scanGens uuid gens

/-- Turns contributed by one prompt entry (lines 95-118): non-dicts are
skipped, a `text` field emits the user turn, a `generationUUID` field
emits the assistant turn the lookup chain yields. -/
def promptTurn (p : JVal) (rm : List (JVal × JVal)) (gens : List JVal) : List String :=
  if !isDict p then []
  else
    (if dictHas p "text" then ["### User\n", pyStr (objGetD p "text" .null) ++ "\n\n"] else [])
      ++ (if dictHas p "generationUUID" then
            assistantFor (objGetD p "generationUUID" .null) rm gens
          else [])

/-- Conversation section of the composer document. -/
def promptTurns (ps : List JVal) (rm : List (JVal × JVal)) (gens : List JVal) : List String :=
  (ps.map (fun p => promptTurn p rm gens)).flatten

/-- Metadata header lines of a composer document (lines 69-73). -/
def composerMeta (cfs : List (String × JVal)) : List String :=
  ["# " ++ pyStr ((lookupField cfs "name").getD (.str "Untitled Composer")) ++ "\n",
   "Composer ID: " ++ pyStr ((lookupField cfs "composerId").getD .null) ++ "\n",
   "Created: " ++ pyStr ((lookupField cfs "createdAt").getD .null) ++ "\n",
   "Last Updated: " ++ pyStr ((lookupField cfs "lastUpdatedAt").getD .null) ++ "\n",
   "Mode: " ++ pyStr ((lookupField cfs "unifiedMode").getD (.str "unknown")) ++ "\n\n"]

/-- Model of `MarkdownChatFormatter._format_composer_data` (lines 64-120):
metadata header, `## Conversation` heading, then the per-prompt turns,
joined with newlines.  Raises when the composer entry is not a dict
(its `.get` calls) or when sorting raises. -/
def formatComposerData (composer : JVal) (gens prompts : List JVal)
    (responses : List (String × Option JVal)) : Except PyErr String :=
  match composer with
  | .obj cfs =>
    match sortPrompts prompts with
    | .error e => .error e
    | .ok ps =>
      .ok (pyJoin "\n" (composerMeta cfs ++ ["## Conversation\n"]
        ++ promptTurns ps (buildResponseMap responses) gens))
  | _ => .error .attributeError

/-! ### Batch orchestration (`MarkdownChatFormatter.format`, lines 122-193,
and `ChatExporter.export`, lines 338-355) -/

/-- A raw store record: key, and the outcome of `json.loads` on its value. -/
abbrev RawRecord := String × Option JVal

/-- Buckets collected by the first loop of `format` (lines 143-157). -/
structure Buckets where
  composerData : Option JVal := none
  generations : List JVal := []
  prompts : List JVal := []
  responses : List RawRecord := []

/-- Coercion `data if isinstance(data, list) else []` of lines 152-154. -/
def asListOrEmpty : JVal → List JVal
  | .arr xs => xs
  | _ => []

/-- One record of the classification loop: unparseable and scalar values are
skipped, the reserved keys fill their buckets, response-cache keys are kept
raw. -/
def classifyStep (b : Buckets) (kv : RawRecord) : Buckets :=
  match kv.2 with
  | none => b
  | some data =>
    if !(isDict data || isList data) then b
    else if kv.1 == "composer.composerData" then { b with composerData := some data }
    else if kv.1 == "aiService.generations" then { b with generations := asListOrEmpty data }
    else if kv.1 == "aiService.prompts" then { b with prompts := asListOrEmpty data }
    else if strStartsWith kv.1 "cursorDiskKV:" then { b with responses := b.responses ++ [kv] }
    else b

/-- First loop of `format`. -/
def classifyRecords (l : List RawRecord) : Buckets :=
  l.foldl classifyStep {}

/-- Python dict assignment for the string-keyed result dict. -/
def dictInsertStr : List (String × String) → String → String → List (String × String)
  | [], k, v => [(k, v)]
  | (k0, v0) :: rest, k, v =>
    if k0 == k then (k0, v) :: rest else (k0, v0) :: dictInsertStr rest k v

/-- Composer loop of lines 161-166: the counter is incremented for every
composer entry, the rendered text is kept under `composer_<id>` whenever
its strip is truthy. -/
def composerFold (gens prompts : List JVal) (responses : List RawRecord)
    : List JVal → Nat × List (String × String) → Except PyErr (Nat × List (String × String))
  | [], st => .ok st
  | c :: cs, (count, dict) => do
    let count := count + 1
    let s ← formatComposerData c gens prompts responses
    let dict :=
      if stripTruthy s then
        dictInsertStr dict ("composer_" ++ pyStr (objGetD c "composerId" (.num (Int.ofNat count)))) s
      else dict
    composerFold gens prompts responses cs (count, dict)

/-- Guard and loop of lines 161-166 over `composer_data['allComposers']`. -/
def composerPhase (b : Buckets) (st : Nat × List (String × String))
    : Except PyErr (Nat × List (String × String)) :=
  match b.composerData with
  | some cd =>
    if truthy cd && isDict cd && dictHas cd "allComposers" then
      match pyIter (objGetD cd "allComposers" .null) with
      | .ok items => composerFold b.generations b.prompts b.responses items st
      | .error e => .error e
    else .ok st
  | none => .ok st

/-- Tab-index filter `tab_ids is not None and tab_index not in tab_ids`. -/
def tabIncluded (tabIds : Option (List Nat)) (i : Nat) : Bool :=
  match tabIds with
  | none => true
  | some l => l.contains i

/-- Tab loop of lines 176-182: the index passed to the tab formatter is the
current counter plus one, and the counter advances only when the rendered
tab has truthy strip. -/
def tabFold (imageDir : Option String) (tabIds : Option (List Nat)) (fs : List String)
    : List (Nat × JVal) → Nat × List (String × String)
      → Except PyErr (Nat × List (String × String))
  | [], st => .ok st
  | (i, tab) :: rest, (count, dict) =>
    if tabIncluded tabIds i then do
      let s ← formatAichatTab tab (count + 1) imageDir fs
      let st' :=
        if stripTruthy s then
          (count + 1, dictInsertStr dict ("chat_" ++ toString (count + 1)) s)
        else (count, dict)
      tabFold imageDir tabIds fs rest st'
    else tabFold imageDir tabIds fs rest (count, dict)

/-- One record of the second loop of `format` (lines 169-184): only dicts
with a `tabs` field contribute; iterating a non-iterable `tabs` raises. -/
def recordTabsStep (imageDir : Option String) (tabIds : Option (List Nat)) (fs : List String)
    (st : Nat × List (String × String)) (kv : RawRecord)
    : Except PyErr (Nat × List (String × String)) :=
  match kv.2 with
  | none => .ok st
  | some data =>
    if !isDict data then .ok st
    else if dictHas data "tabs" then
      match pyIter (objGetD data "tabs" .null) with
      | .error e => .error e
      | .ok items => tabFold imageDir tabIds fs items.enum st
    else .ok st

/-- Second loop of `format` over the whole batch. -/
def tabsFold (imageDir : Option String) (tabIds : Option (List Nat)) (fs : List String)
    : List RawRecord → Nat × List (String × String)
      → Except PyErr (Nat × List (String × String))
  | [], st => .ok st
  | kv :: rest, st =>
    match recordTabsStep imageDir tabIds fs st kv with
    | .error e => .error e
    | .ok st' => tabsFold imageDir tabIds fs rest st'

/-- Model of `MarkdownChatFormatter.format` (lines 122-193): classification,
composer phase, tab phase; the top-level `except` maps any exception to
`None`, and `fs` is the set of paths that exist on disk. -/
def mdFormat (chatData : List RawRecord) (imageDir : Option String)
    (tabIds : Option (List Nat)) (fs : List String) : Option (List (String × String)) :=
  let b := classifyRecords chatData
  match composerPhase b (0, []) with
  | .error _ => none
  | .ok st1 =>
    match tabsFold imageDir tabIds fs chatData st1 with
    | .error _ => none
    | .ok (_, dict) => some dict

/-- Model of `ChatExporter.export` (lines 338-355) with `MarkdownFileSaver`:
the list of `(path, body)` writes, one per formatted chat, named
`<output_dir>/<name>.md`; a `None` from the formatter writes nothing. -/
def mdExport (chatData : List RawRecord) (outputDir imageDir : String)
    (tabIds : Option (List Nat)) (fs : List String) : List (String × String) :=
  match mdFormat chatData (some imageDir) tabIds fs with
  | some d => d.map (fun nv => (pyPathJoin outputDir (nv.1 ++ ".md"), nv.2))
  | none => []

/-! ### Auxiliary definitions used by the claim statements -/

/-- Do the given needles occur in the character list, in order, each after
the end of the previous match. -/
def containsInOrderChars : List Char → List String → Bool
  | _, [] => true
  | cs, n :: ns =>
    match findTail n.toList cs with
    | some rest => containsInOrderChars rest ns
    | none => false

/-- Do the given needles occur in the string, in order, each after the end
of the previous match. -/
def containsInOrder (s : String) (ns : List String) : Bool :=
  containsInOrderChars s.toList ns

/-- Option-valued reading of the `v[0]` subscript: the cases where Python
would succeed. -/
def optIdx0 : JVal → Option JVal
  | .arr (x :: _) => some x
  | .str s =>
    match s.toList with
    | c :: _ => some (.str (String.singleton c))
    | [] => none
  | _ => none

/-- Descent into the parsed `initText` tree as the claim words it:
root, first top-level child, first nested child, text leaf; `none` on any
structural failure. -/
def initDescendSpec (i : JVal) : Option JVal := do
  let parsed ← (jsonLoadsVal i).toOption
  let root ← objGet parsed "root"
  let ch ← objGet root "children"
  let c0 ← optIdx0 ch
  let ch2 ← objGet c0 "children"
  let c00 ← optIdx0 ch2
  objGet c00 "text"

/-- Amended priority chain of claim C4, written as the corrected claim
describes it: dispatch on field PRESENCE in the order delegate, text,
initText, rawText; a present-but-falsy field yields the empty string
without falling through; a truthy delegate yields its embedded `a` field
(sentinel when the delegate carries none); a truthy initText yields the
tree descent (sentinel on failure); a truthy rawText yields the sentinel,
because the source then reads the absent `text` field; and a bubble with
none of the four fields yields the sentinel. -/
def userTextChainSpec (b : JVal) : JVal :=
  match objGet b "delegate" with
  | some d =>
    if truthy d then
      match objGet d "a" with
      | some v => v
      | none => noUserText
    else .str ""
  | none =>
    match objGet b "text" with
    | some t => if truthy t then t else .str ""
    | none =>
      match objGet b "initText" with
      | some i =>
        if truthy i then
          match initDescendSpec i with
          | some v => v
          | none => noUserText
        else .str ""
      | none =>
        match objGet b "rawText" with
        | some r => if truthy r then noUserText else .str ""
        | none => noUserText

/-- Does a prompt entry carry an integer timestamp (a dict with a numeric
`unixMs` field). -/
def hasNumTs (p : JVal) : Bool :=
  match p with
  | .obj pfs =>
    match lookupField pfs "unixMs" with
    | some (.num _) => true
    | _ => false
  | _ => false

/-- Negation of the sorting condition of line 92: no prompts, or a first
entry that is not a dict carrying `unixMs`. -/
def noSortCond : List JVal → Bool
  | [] => true
  | p :: _ => !(isDict p && dictHas p "unixMs")

/-! ### Concrete inputs named by the claim theorems -/

/-- Round-trip record of claim C1. -/
def c1Record : RawRecord :=
  ("workbench...chatdata", some (.obj [("tabs", .arr [.obj [
    ("chatTitle", .str "T"),
    ("bubbles", .arr [
      .obj [("type", .str "user"), ("text", .str "hi")],
      .obj [("type", .str "ai"), ("modelType", .str "gpt"), ("rawText", .str "hello")]])]])]))

/-- Body of the single document claim C1 produces. -/
def c1Body : String :=
  "# Chat Transcript - T\n\n## User:\n\n\n[text]  \nhi\n\n\n## AI (gpt):\n\nhello\n"

/-- A session value whose only tab holds one AI-typed bubble with no
`rawText` field: formatting it raises `KeyError`. -/
def badAiRecord : JVal :=
  .obj [("tabs", .arr [.obj [("bubbles", .arr [.obj [("type", .str "ai")]])]])]

/-- Composer batch of claim C3: one composer entry with no fields at all,
hence zero turns. -/
def emptyComposerRecord : RawRecord :=
  ("composer.composerData", some (.obj [("allComposers", .arr [.obj []])]))

/-- Metadata-only document the empty composer entry still produces. -/
def c3Body : String :=
  "# Untitled Composer\n\nComposer ID: None\n\nCreated: None\n\nLast Updated: None\n\nMode: unknown\n\n\n## Conversation\n"

/-- Session value of claim C5 whose user bubble references an image file. -/
def imgRecord : JVal :=
  .obj [("tabs", .arr [.obj [("bubbles", .arr [.obj [
    ("type", .str "user"), ("image", .obj [("path", .str "/img/a.png")])]])]])]

/-- Prompt with a timestamp (claim C6). -/
def c6p1 : JVal := .obj [("unixMs", .num 5), ("text", .str "PROMPT-A")]

/-- Prompt without a timestamp (claim C6). -/
def c6p2 : JVal := .obj [("text", .str "PROMPT-B")]

/-- Composer document rendered from the two C6 prompts: the sort still ran. -/
def c6Body : String :=
  "# Untitled Composer\n\nComposer ID: None\n\nCreated: None\n\nLast Updated: None\n\nMode: unknown\n\n\n## Conversation\n\n### User\n\nPROMPT-B\n\n\n### User\n\nPROMPT-A\n\n"

/-- Generation log of claim C8: the first entry matching `u` has no
`textDescription`, the second does. -/
def c8gens : List JVal :=
  [.obj [("generationUUID", .str "u")],
   .obj [("generationUUID", .str "u"), ("textDescription", .str "DESC")]]

/-- User bubble of claim C9 with an empty selections list and nothing else. -/
def c9Bubble : JVal := .obj [("type", .str "user"), ("selections", .arr [])]

/-! ### General lemmas about the embedding -/

theorem except_bind_ok (a : α) (f : α → Except ε β) : (Except.ok a >>= f) = f a := rfl

theorem except_bind_error (e : ε) (f : α → Except ε β) :
    ((Except.error e : Except ε α) >>= f) = .error e := rfl

theorem except_pure_eq (a : α) : (pure a : Except ε α) = .ok a := rfl

mutual
theorem jeq_refl : ∀ v, jeq v v = true
  | .null => rfl
  | .bool b => by simp [jeq]
  | .num n => by simp [jeq]
  | .str s => by simp [jeq]
  | .arr xs => by simp [jeq, jeqList_refl xs]
  | .obj fs => by simp [jeq, jeqFields_refl fs]
theorem jeqList_refl : ∀ l, jeqList l l = true
  | [] => rfl
  | x :: xs => by simp [jeqList, jeq_refl x, jeqList_refl xs]
theorem jeqFields_refl : ∀ fs, jeqFields fs fs = true
  | [] => rfl
  | (k, v) :: fs => by simp [jeqFields, jeq_refl v, jeqFields_refl fs]
end

/-- Looking up the key just assigned finds the assigned value. -/
theorem rmLookup_dictInsert (m : List (JVal × JVal)) (u v : JVal) :
    rmLookup (dictInsert m u v) u = some v := by
  induction m with
  | nil => simp [dictInsert, rmLookup, List.find?, jeq_refl]
  | cons p rest ih =>
    by_cases h : jeq p.1 u = true
    · simp [dictInsert, h, rmLookup, List.find?]
    · simp only [dictInsert]
      rw [if_neg (by simpa using h)]
      simpa [rmLookup, List.find?, h] using ih

/-- A successful lookup implies Python membership in the response map. -/
theorem rmContains_of_lookup {m : List (JVal × JVal)} {u : JVal} {v : JVal}
    (h : rmLookup m u = some v) : rmContains m u = true := by
  unfold rmLookup at h
  unfold rmContains
  rcases hf : List.find? (fun p => jeq p.1 u) m with _ | p
  · rw [hf] at h; cases h
  · have hmem := List.mem_of_find?_eq_some hf
    have hp := List.find?_some hf
    exact List.any_eq_true.mpr ⟨p, hmem, hp⟩

/-- Joining a nonempty list starts with its first element. -/
theorem pyJoin_cons_ex (sep x : String) (xs : List String) :
    ∃ t, pyJoin sep (x :: xs) = x ++ t := by
  cases xs with
  | nil => exact ⟨"", by simp [pyJoin]⟩
  | cons y ys => exact ⟨sep ++ pyJoin sep (y :: ys), by simp [pyJoin, String.append_assoc]⟩

/-- A string that starts with a hash sign survives stripping. -/
theorem stripTruthy_hash (t : String) : stripTruthy ("# " ++ t) = true := by
  unfold stripTruthy pyStripChars
  have hdata : ("# " ++ t).toList = '#' :: ' ' :: t.toList := by
    show ("# " ++ t).data = '#' :: ' ' :: t.data
    rw [String.data_append]
    rfl
  rw [hdata]
  have h1 : List.dropWhile isPySpace ('#' :: ' ' :: t.toList) = '#' :: ' ' :: t.toList := by
    simp [List.dropWhile, isPySpace]
  rw [h1]
  rcases h2 : List.dropWhile isPySpace ('#' :: ' ' :: t.toList).reverse with _ | ⟨c, cs⟩
  · exfalso
    have := List.dropWhile_eq_nil_iff.mp h2 '#' (by simp)
    simp [isPySpace] at this
  · simp

/-! ### Claim C1 -/

/-- C1: formatting and exporting the single-record batch of the round-trip
scenario produces exactly one document, named `chat_1` and written as
`chat_1.md`, whose body contains, in order, a title heading containing
`T`, a `User:` section containing `hi`, and an `AI (gpt):` section
containing `hello`. -/
theorem c1_roundtrip_single_session :
    ∃ body,
      mdFormat [c1Record] (some "images") none [] = some [("chat_1", body)] ∧
      mdExport [c1Record] "output" "images" none [] = [("output/chat_1.md", body)] ∧
      containsInOrder body ["# Chat Transcript - T", "## User:", "hi", "## AI (gpt):", "hello"] = true :=
  ⟨c1Body, rfl, rfl, rfl⟩

/-! ### Claim C2 -/

/-- C2 counterexample: a batch holding one well-formed session record and a
second record whose tab has a single AI bubble with no `rawText` produces
NO documents at all — `format` returns `None`, so not even the well-formed
record's document survives, contradicting the claim that the rest of the
batch is still produced. -/
theorem c2_counterexample :
    mdFormat [c1Record, ("b", some badAiRecord)] (some "images") none [] = none := rfl

/-! ### Claim C3 -/

/-- C3 counterexample: a composer entry with zero non-empty turns (an empty
composer dict, no prompts, no responses) is still rendered and written:
the batch produces the metadata-only document `composer_1`, contradicting
the claim that such a conversation is never rendered and never written. -/
theorem c3_counterexample :
    mdFormat [emptyComposerRecord] (some "images") none [] = some [("composer_1", c3Body)] ∧
    mdExport [emptyComposerRecord] "output" "images" none [] = [("output/composer_1.md", c3Body)] :=
  ⟨rfl, rfl⟩

/-! ### Claim C4 -/

/-- C4 counterexample: for the bubble with a present-but-falsy `delegate`
and a truthy direct `text` field `"hi"`, the claimed chain would fall
through to the text field and yield `"hi"`; the code dispatches on field
presence and returns the empty string. -/
theorem c4_counterexample :
    extractTextFromUserBubble (.obj [("delegate", .null), ("text", .str "hi")]) = .str "" ∧
    extractTextFromUserBubble (.obj [("delegate", .null), ("text", .str "hi")]) ≠ .str "hi" := by
  refine ⟨rfl, fun h => ?_⟩
  rw [show extractTextFromUserBubble (.obj [("delegate", .null), ("text", .str "hi")]) = .str "" from rfl] at h
  injection h with h2
  exact absurd h2 (by decide)

/-! ### Claim C5 -/

/-- C5: the image-copy branch is broken.  With the referenced file existing,
the source reads `tab_image_dir` one line before assigning it, raising
`UnboundLocalError`; the exception reaches `format`'s top-level handler and
the whole batch yields no documents, instead of the claimed copy plus image
block.  The missing-file branch does behave as claimed: an image block with
no resolvable path. -/
theorem c5_image_copy_bug :
    mdFormat [("k", some imgRecord)] (some "images") none ["/img/a.png"] = none ∧
    imagePart (.obj [("type", .str "user"), ("image", .obj [("path", .str "/img/a.png")])])
        (some "images") ["/img/a.png"] = .error .unboundLocalError ∧
    formatUserBubble (.obj [("type", .str "user"), ("image", .obj [("path", .str "/img/a.png")])])
        (some "images") []
      = .ok ["## User:\n\n", "[image]  \n![User Image]()", "[text]  \n[ERROR: no user text found]", "\n"] :=
  ⟨rfl, rfl, rfl⟩

/-! ### Claim C6 -/

/-- C6 counterexample: with a first prompt carrying a timestamp and a second
lacking one, the claim demands arrival order (`PROMPT-A` then `PROMPT-B`);
the code sorts anyway (missing key defaulting to 0), so the rendered
conversation lists `PROMPT-B` before `PROMPT-A`. -/
theorem c6_counterexample :
    sortPrompts [c6p1, c6p2] = .ok [c6p2, c6p1] ∧
    formatComposerData (.obj []) [] [c6p1, c6p2] [] = .ok c6Body ∧
    containsInOrder c6Body ["PROMPT-B", "PROMPT-A"] = true ∧
    containsInOrder c6Body ["PROMPT-A", "PROMPT-B"] = false :=
  ⟨rfl, rfl, rfl, rfl⟩

/-! ### Claim C8 -/

/-- C8 counterexample: the prompt's identifier `u` is absent from the
response map, and a generation-log entry with identifier `u` carries the
descriptive text `DESC`; yet the code emits no assistant turn, because the
scan breaks at the FIRST matching entry, which carries no text. -/
theorem c8_counterexample :
    promptTurn (.obj [("generationUUID", .str "u")]) [] c8gens = [] ∧
    rmLookup [] (.str "u") = none ∧
    (∃ g ∈ c8gens,
      jeq (objGetD g "generationUUID" .null) (.str "u") = true ∧
      (objGet g "textDescription").isSome = true) := by
  refine ⟨rfl, rfl, .obj [("generationUUID", .str "u"), ("textDescription", .str "DESC")], ?_, rfl, rfl⟩
  simp [c8gens]

/-! ### Claim C9 -/

/-- C9 counterexample: a user bubble whose `selections` list is empty, with
no image and no extractable user text, still renders a `User:` block — the
extraction chain yields the truthy sentinel string, which is emitted as the
text block, contradicting the claim that no user-turn block appears. -/
theorem c9_counterexample :
    formatUserBubble c9Bubble (some "images") []
      = .ok ["## User:\n\n", "[text]  \n[ERROR: no user text found]", "\n"] ∧
    formatAichatTab (.obj [("bubbles", .arr [c9Bubble])]) 1 (some "images") []
      = .ok "# Chat Transcript - Chat 1\n\n## User:\n\n\n[text]  \n[ERROR: no user text found]\n\n" ∧
    containsInOrder "# Chat Transcript - Chat 1\n\n## User:\n\n\n[text]  \n[ERROR: no user text found]\n\n"
      ["## User:"] = true :=
  ⟨rfl, rfl, rfl⟩

/-! ### Lemmas relating the exception-monad subscripts to their optional
readings, used by the C4 refinement -/

theorem toOption_bind (x : Except ε α) (f : α → Except ε β) :
    (x >>= f).toOption = (x.toOption).bind (fun a => (f a).toOption) := by
  cases x <;> rfl

theorem subscript_toOption (v : JVal) (k : String) :
    (pySubscript v k).toOption = objGet v k := by
  cases v with
  | obj fs => cases h : lookupField fs k <;> simp [pySubscript, objGet, h, Except.toOption]
  | null => rfl
  | bool b => rfl
  | num n => rfl
  | str s => rfl
  | arr xs => rfl

theorem idx0_toOption (v : JVal) :
    (pyIndexZero v).toOption = optIdx0 v := by
  cases v with
  | arr xs => cases xs <;> rfl
  | str s => cases h : s.data <;> simp [pyIndexZero, optIdx0, String.toList, h, Except.toOption]
  | null => rfl
  | bool b => rfl
  | num n => rfl
  | obj fs => rfl

/-- The source's parse-and-descend and the claim's optional descent agree. -/
theorem initTextLoad_toOption (i : JVal) :
    (initTextLoad i).toOption = initDescendSpec i := by
  unfold initTextLoad initDescendSpec
  simp only [toOption_bind, subscript_toOption, idx0_toOption]
  rfl

/-- Catching every exception of a subscript with a default is the optional
lookup with the same default. -/
theorem catch_subscript (d : JVal) (k : String) :
    (match pySubscript d k with
     | .ok v => v
     | .error _ => noUserText) =
    (match objGet d k with
     | some v => v
     | none => noUserText) := by
  cases d with
  | obj dfs => cases h : lookupField dfs k <;> simp [pySubscript, objGet, h]
  | null => rfl
  | bool b => rfl
  | num n => rfl
  | str s => rfl
  | arr xs => rfl

/-! ### Claim C4, amended -/

/-- C4 amended: the extraction chain dispatches on field PRESENCE in the
order delegate, text, initText, rawText, first present field wins; a
present-but-falsy field yields the empty string without falling through;
a truthy delegate yields its embedded `a` field and the sentinel when it
carries none; a truthy initText yields the first top-level child's first
nested child's text leaf of the parsed tree, the sentinel on any
structural failure; a truthy rawText yields the sentinel (the source reads
the absent `text` field there); and a bubble with none of the four fields
yields the sentinel. -/
theorem c4_amended_extraction_chain (fields : List (String × JVal)) :
    extractTextFromUserBubble (.obj fields) = userTextChainSpec (.obj fields) := by
  unfold extractTextFromUserBubble extractTextGo userTextChainSpec
  simp only [pyIn, objGet]
  cases hd : lookupField fields "delegate" with
  | some d =>
    simp only [Option.isSome_some]
    cases htr : truthy d with
    | false => simp [pySubscript, hd, htr]
    | true =>
      simp only [pySubscript, hd, htr]
      cases d with
      | obj dfs => cases ha : lookupField dfs "a" <;> simp [ha]
      | null => rfl
      | bool b => rfl
      | num n => rfl
      | str s => rfl
      | arr xs => rfl
  | none =>
    simp only [Option.isSome_none]
    cases ht : lookupField fields "text" with
    | some t =>
      simp only [Option.isSome_some]
      cases htr : truthy t with
      | false => simp [pySubscript, ht, htr]
      | true => simp [pySubscript, ht, htr]
    | none =>
      simp only [Option.isSome_none]
      cases hi : lookupField fields "initText" with
      | some i =>
        simp only [Option.isSome_some]
        cases htr : truthy i with
        | false => simp [pySubscript, hi, htr]
        | true =>
          have hload := initTextLoad_toOption i
          cases hl : initTextLoad i with
          | ok v =>
            rw [hl] at hload
            have hspec : initDescendSpec i = some v := by rw [← hload]; rfl
            simp [pySubscript, hi, htr, hl, hspec]
          | error e =>
            rw [hl] at hload
            have hspec : initDescendSpec i = none := by rw [← hload]; rfl
            simp [pySubscript, hi, htr, hl, hspec]
      | none =>
        simp only [Option.isSome_none]
        cases hr : lookupField fields "rawText" with
        | some r =>
          simp only [Option.isSome_some]
          cases htr : truthy r with
          | false => simp [pySubscript, hr, htr]
          | true => simp [pySubscript, hr, ht, htr]
        | none => simp

/-! ### Claim C2, amended -/

theorem recordTabsStep_badAi (imageDir : Option String) (fs : List String)
    (k : String) (st : Nat × List (String × String)) :
    recordTabsStep imageDir none fs st (k, some badAiRecord) = .error .keyError := by
  rcases st with ⟨count, dict⟩
  rfl

theorem tabsFold_badAi (imageDir : Option String) (fs : List String) (k : String) :
    ∀ (l : List RawRecord) (st : Nat × List (String × String)),
      (k, some badAiRecord) ∈ l → ∃ e, tabsFold imageDir none fs l st = .error e
  | [], _, h => absurd h (List.not_mem_nil _)
  | r :: rest, st, h => by
    rcases List.mem_cons.mp h with heq | hmem
    · rw [← heq]
      exact ⟨.keyError, by simp [tabsFold, recordTabsStep_badAi]⟩
    · cases hstep : recordTabsStep imageDir none fs st r with
      | error e => exact ⟨e, by simp [tabsFold, hstep]⟩
      | ok st2 =>
        obtain ⟨e, he⟩ := tabsFold_badAi imageDir fs k rest st2 hmem
        exact ⟨e, by simp [tabsFold, hstep, he]⟩

/-- C2 amended: a malformed bubble whose formatting raises (here an AI-typed
bubble with no `rawText` field) aborts the ENTIRE batch, not just its tab:
the `KeyError` propagates uncaught through `_format_aichat_tab` and the
record loop to `format`'s top-level handler, which returns `None`, so no
document is produced for any record of the batch.  (Only user-text
extraction failures degrade to a sentinel without aborting.) -/
theorem c2_amended_malformed_bubble_aborts_batch (chatData : List RawRecord)
    (k : String) (imageDir : Option String) (fs : List String)
    (h : (k, some badAiRecord) ∈ chatData) :
    mdFormat chatData imageDir none fs = none := by
  unfold mdFormat
  cases hc : composerPhase (classifyRecords chatData) (0, []) with
  | error e => simp [hc]
  | ok st1 =>
    obtain ⟨e, he⟩ := tabsFold_badAi imageDir fs k chatData st1 h
    simp [hc, he]

/-- C2 witness: the amended theorem applied to a concrete one-record batch. -/
theorem c2_witness : mdFormat [("x", some badAiRecord)] (some "images") none [] = none :=
  c2_amended_malformed_bubble_aborts_batch [("x", some badAiRecord)] "x" (some "images") []
    (List.mem_singleton.mpr rfl)

/-! ### Claim C3, amended -/

/-- C3 amended: the invariant fails in the composer path.  Every composer
entry the formatter renders successfully yields a document whose strip is
truthy — the metadata header makes the rendered text non-empty even when
the entry carries zero non-empty turns — so the emptiness guard of line
165 never discards it and the entry is always stored and written. -/
theorem c3_amended_composer_always_rendered (composer : JVal)
    (gens prompts : List JVal) (responses : List (String × Option JVal)) (s : String)
    (h : formatComposerData composer gens prompts responses = .ok s) :
    stripTruthy s = true := by
  cases composer with
  | obj cfs =>
    unfold formatComposerData at h
    cases hs : sortPrompts prompts with
    | error e => rw [hs] at h; cases h
    | ok ps =>
      rw [hs] at h
      injection h with h2
      rw [← h2]
      show stripTruthy (pyJoin "\n"
        (("# " ++ pyStr ((lookupField cfs "name").getD (.str "Untitled Composer")) ++ "\n")
          :: ((composerMeta cfs).tail ++ ["## Conversation\n"]
            ++ promptTurns ps (buildResponseMap responses) gens))) = true
      obtain ⟨t, ht⟩ := pyJoin_cons_ex "\n"
        ("# " ++ pyStr ((lookupField cfs "name").getD (.str "Untitled Composer")) ++ "\n")
        ((composerMeta cfs).tail ++ ["## Conversation\n"]
          ++ promptTurns ps (buildResponseMap responses) gens)
      rw [ht, String.append_assoc, String.append_assoc]
      exact stripTruthy_hash _
  | null => cases h
  | bool b => cases h
  | num n => cases h
  | str s2 => cases h
  | arr xs => cases h

/-- C3 witness: the amended theorem applied to the empty composer entry. -/
theorem c3_witness :
    formatComposerData (.obj []) [] [] [] = .ok c3Body ∧ stripTruthy c3Body = true :=
  ⟨rfl, c3_amended_composer_always_rendered (.obj []) [] [] [] c3Body rfl⟩

/-! ### Claim C9, amended -/

/-- C9 amended: a user bubble with an empty `selections` list, no image
reference, and whose EXTRACTED text is falsy (the empty string — for
example a present-but-empty `text` field) produces no rendered user-turn
block.  When no text-carrying field is present at all, the extraction
yields the truthy sentinel string instead, and a block IS rendered. -/
theorem c9_amended_empty_bubble_omitted (fields : List (String × JVal))
    (imageDir : Option String) (fs : List String)
    (hsel : lookupField fields "selections" = some (.arr []))
    (himg : lookupField fields "image" = none)
    (htext : extractTextFromUserBubble (.obj fields) = .str "") :
    formatUserBubble (.obj fields) imageDir fs = .ok [] := by
  simp [formatUserBubble, imagePart, dictHas, objGet, objGetD, hsel, himg, htext, truthy]
  rfl

/-- C9 witness: the amended theorem applied to a bubble with empty
selections, no image and an empty `text` field. -/
theorem c9_witness :
    formatUserBubble (.obj [("selections", .arr []), ("text", .str "")]) (some "images") []
      = .ok [] :=
  c9_amended_empty_bubble_omitted [("selections", .arr []), ("text", .str "")]
    (some "images") [] rfl rfl rfl

/-! ### Claim C10 -/

theorem classify_foldl_none :
    ∀ (l : List RawRecord) (b : Buckets), (∀ r ∈ l, r.2 = none) →
      l.foldl classifyStep b = b
  | [], _, _ => rfl
  | r :: rest, b, h => by
    have hr : r.2 = none := h r (List.mem_cons_self r rest)
    have hstep : classifyStep b r = b := by
      rcases r with ⟨kk, v⟩
      simp only at hr
      subst hr
      rfl
    rw [List.foldl_cons, hstep]
    exact classify_foldl_none rest b (fun x hx => h x (List.mem_cons_of_mem r hx))

theorem tabsFold_none (imageDir : Option String) (tabIds : Option (List Nat)) (fs : List String) :
    ∀ (l : List RawRecord) (st : Nat × List (String × String)),
      (∀ r ∈ l, r.2 = none) → tabsFold imageDir tabIds fs l st = .ok st
  | [], _, _ => rfl
  | r :: rest, st, h => by
    have hr : r.2 = none := h r (List.mem_cons_self r rest)
    have hstep : recordTabsStep imageDir tabIds fs st r = .ok st := by
      rcases r with ⟨kk, v⟩
      simp only at hr
      subst hr
      rfl
    simp only [tabsFold, hstep]
    exact tabsFold_none imageDir tabIds fs rest st (fun x hx => h x (List.mem_cons_of_mem r hx))

/-- C10: a batch in which every record's value fails to parse yields the
empty document dict — not `None` and not an exception — and the exporter
consequently writes no files. -/
theorem c10_unparseable_batch_empty (chatData : List RawRecord)
    (imageDir : Option String) (outputDir imgDir : String)
    (tabIds : Option (List Nat)) (fs : List String)
    (h : ∀ r ∈ chatData, r.2 = none) :
    mdFormat chatData imageDir tabIds fs = some [] ∧
    mdExport chatData outputDir imgDir tabIds fs = [] := by
  have hcl : classifyRecords chatData = {} := classify_foldl_none chatData {} h
  constructor
  · unfold mdFormat
    rw [hcl]
    show (match tabsFold imageDir tabIds fs chatData (0, []) with
      | .error _ => none
      | .ok (_, dict) => some dict) = some []
    rw [tabsFold_none imageDir tabIds fs chatData (0, []) h]
  · unfold mdExport mdFormat
    rw [hcl]
    show (match (match tabsFold (some imgDir) tabIds fs chatData (0, []) with
      | .error _ => none
      | .ok (_, dict) => some dict) with
      | some d => d.map (fun nv => (pyPathJoin outputDir (nv.1 ++ ".md"), nv.2))
      | none => []) = []
    rw [tabsFold_none (some imgDir) tabIds fs chatData (0, []) h]
    rfl

/-- C10 witness: the theorem applied to a concrete all-unparseable batch. -/
theorem c10_witness :
    mdFormat [("a", none), ("composer.composerData", none)] (some "images") none [] = some [] ∧
    mdExport [("a", none), ("composer.composerData", none)] "output" "images" none [] = [] :=
  c10_unparseable_batch_empty [("a", none), ("composer.composerData", none)]
    (some "images") "output" "images" none []
    (by
      intro r hr
      rcases List.mem_cons.mp hr with h1 | h2
      · rw [h1]
      · rw [List.mem_singleton.mp h2])

/-! ### Claim C8, amended -/

/-- C8 amended: for a prompt identifier, the assistant turn is the matched
response text when the identifier is in the response map; otherwise the
FIRST generation-log entry with the same identifier is consulted — its
`textDescription` is emitted when it carries one, and nothing is emitted
otherwise, even when a LATER matching entry carries descriptive text; when
no entry matches, no assistant turn is emitted. -/
theorem c8_amended_assistant_lookup (u : JVal) (rm : List (JVal × JVal)) (gens : List JVal) :
    assistantFor u rm gens =
      (match rmLookup rm u with
       | some t => ["### Assistant\n", pyStr t ++ "\n\n"]
       | none =>
         match gens.find? (fun g => isDict g && jeq (objGetD g "generationUUID" .null) u) with
         | some g =>
           match objGet g "textDescription" with
           | some d => ["### Assistant\n", pyStr d ++ "\n\n"]
           | none => []
         | none => []) := by
  unfold assistantFor
  by_cases hc : rmContains rm u = true
  · rw [if_pos hc]
    have hsome : (rmLookup rm u).isSome = true := by
      unfold rmContains at hc
      obtain ⟨p, hp, hj⟩ := List.any_eq_true.mp hc
      unfold rmLookup
      cases hf : List.find? (fun q => jeq q.1 u) rm with
      | none =>
        exfalso
        have hfs := (@List.find?_isSome (JVal × JVal) rm (fun q => jeq q.1 u)).mpr ⟨p, hp, hj⟩
        rw [hf] at hfs
        cases hfs
      | some q => rfl
    obtain ⟨t, ht⟩ := Option.isSome_iff_exists.mp hsome
    rw [ht]
    simp [rmGet, ht]
  · rw [if_neg hc]
    have hnone : rmLookup rm u = none := by
      cases hl : rmLookup rm u with
      | none => rfl
      | some t => exact absurd (rmContains_of_lookup hl) hc
    rw [hnone]
    induction gens with
    | nil => rfl
    | cons g gs ih =>
      by_cases hg : (isDict g && jeq (objGetD g "generationUUID" .null) u) = true
      · rw [scanGens, if_pos hg,
          @List.find?_cons_of_pos JVal
            (fun x => isDict x && jeq (objGetD x "generationUUID" JVal.null) u) g gs hg]
      · rw [scanGens, if_neg hg,
          @List.find?_cons_of_neg JVal
            (fun x => isDict x && jeq (objGetD x "generationUUID" JVal.null) u) g gs hg]
        exact ih

/-! ### Claim C7 -/

theorem buildResponseMap_append (rs : List (String × Option JVal)) (k : String) (dfs : List (String × JVal)) (t : JVal)
    (hresp : lookupField dfs "response" = some t) :
    buildResponseMap (rs ++ [(k, some (.obj dfs))])
      = dictInsert (buildResponseMap rs) (respUuid k (.obj dfs)) t := by
  unfold buildResponseMap
  rw [List.foldl_append]
  simp [isDict, dictHas, objGet, objGetD, hresp]

/-- C7: scanning the responses, a record whose parsed value is a dict with a
reply payload is stored under the embedded `generationUUID` when present,
else under the trailing segment of its key (that choice is `respUuid`);
and the LAST record with a given identifier wins — its reply text is what
the lookup returns, whatever earlier records said, and it is the text
rendered as the assistant turn for a prompt carrying that identifier. -/
theorem c7_response_map_last_wins (rs1 : List (String × Option JVal)) (k : String)
    (dfs : List (String × JVal)) (t : JVal) (gens : List JVal)
    (hresp : lookupField dfs "response" = some t) :
    rmLookup (buildResponseMap (rs1 ++ [(k, some (.obj dfs))])) (respUuid k (.obj dfs)) = some t ∧
    promptTurns [.obj [("generationUUID", respUuid k (.obj dfs)), ("text", .str "Q")]]
        (buildResponseMap (rs1 ++ [(k, some (.obj dfs))])) gens
      = ["### User\n", "Q\n\n", "### Assistant\n", pyStr t ++ "\n\n"] := by
  have hmap := buildResponseMap_append rs1 k dfs t hresp
  have hlook : rmLookup (buildResponseMap (rs1 ++ [(k, some (.obj dfs))])) (respUuid k (.obj dfs)) = some t := by
    rw [hmap]
    exact rmLookup_dictInsert _ _ _
  refine ⟨hlook, ?_⟩
  have hcontains := rmContains_of_lookup hlook
  simp [promptTurns, promptTurn, isDict, dictHas, objGet, objGetD, lookupField, List.find?,
    assistantFor, hcontains, rmGet, hlook]
  rfl

/-- C7 witness: two response records colliding on identifier `u1`; the
later-scanned one's text `NEW` is stored and rendered. -/
theorem c7_witness :
    rmLookup
        (buildResponseMap ([("cursorDiskKV:u1", some (.obj [("response", .str "OLD")]))]
          ++ [("cursorDiskKV:u1", some (.obj [("response", .str "NEW")]))]))
        (respUuid "cursorDiskKV:u1" (.obj [("response", .str "NEW")])) = some (.str "NEW") ∧
    promptTurns [.obj [("generationUUID",
          respUuid "cursorDiskKV:u1" (.obj [("response", .str "NEW")])), ("text", .str "Q")]]
        (buildResponseMap ([("cursorDiskKV:u1", some (.obj [("response", .str "OLD")]))]
          ++ [("cursorDiskKV:u1", some (.obj [("response", .str "NEW")]))])) []
      = ["### User\n", "Q\n\n", "### Assistant\n", "NEW\n\n"] :=
  c7_response_map_last_wins [("cursorDiskKV:u1", some (.obj [("response", .str "OLD")]))]
    "cursorDiskKV:u1" [("response", .str "NEW")] (.str "NEW") [] rfl

/-! ### Stable-sort lemmas and claim C6 -/

theorem stableInsert_perm (lt : α → α → Bool) (x : α) (l : List α) :
    List.Perm (stableInsert lt x l) (x :: l) := by
  induction l with
  | nil => exact List.Perm.refl _
  | cons y ys ih =>
    rw [stableInsert]
    by_cases h : lt y x = true
    · rw [if_pos h]
      exact (ih.cons y).trans (List.Perm.swap x y ys)
    · rw [if_neg h]

theorem stableSort_perm (lt : α → α → Bool) (l : List α) :
    List.Perm (stableSort lt l) l := by
  induction l with
  | nil => exact List.Perm.refl _
  | cons x xs ih =>
    rw [stableSort]
    exact (stableInsert_perm lt x (stableSort lt xs)).trans (ih.cons x)

theorem stableInsert_sorted (f : α → Int) (x : α) (l : List α)
    (h : l.Pairwise (fun a b => f a ≤ f b)) :
    (stableInsert (fun a b => decide (f a < f b)) x l).Pairwise (fun a b => f a ≤ f b) := by
  induction l with
  | nil => simp [stableInsert]
  | cons y ys ih =>
    rw [stableInsert]
    rcases List.pairwise_cons.mp h with ⟨hy, hys⟩
    by_cases hlt : f y < f x
    · rw [if_pos (by simpa using hlt)]
      refine List.pairwise_cons.mpr ⟨?_, ih hys⟩
      intro z hz
      have hz2 : z ∈ x :: ys := (stableInsert_perm _ x ys).mem_iff.mp hz
      rcases List.mem_cons.mp hz2 with rfl | hzys
      · exact le_of_lt hlt
      · exact hy z hzys
    · rw [if_neg (by simpa using hlt)]
      refine List.pairwise_cons.mpr ⟨?_, h⟩
      intro z hz
      rcases List.mem_cons.mp hz with rfl | hzys
      · exact le_of_not_lt hlt
      · exact le_trans (le_of_not_lt hlt) (hy z hzys)

theorem stableSort_sorted (f : α → Int) (l : List α) :
    (stableSort (fun a b => decide (f a < f b)) l).Pairwise (fun a b => f a ≤ f b) := by
  induction l with
  | nil => simp [stableSort]
  | cons x xs ih =>
    rw [stableSort]
    exact stableInsert_sorted f x _ ih

theorem promptKeys_ok : ∀ (l : List JVal), (∀ p ∈ l, hasNumTs p = true) →
    ∃ ks, l.mapM promptSortKey = Except.ok ks ∧ ks.all (fun k => (keyNum k).isSome) = true
  | [], _ => ⟨[], rfl, rfl⟩
  | p :: rest, h => by
    have hp := h p (List.mem_cons_self p rest)
    obtain ⟨ks, hks, hallk⟩ := promptKeys_ok rest (fun x hx => h x (List.mem_cons_of_mem p hx))
    cases p with
    | obj pfs =>
      cases hl : lookupField pfs "unixMs" with
      | none => simp [hasNumTs, hl] at hp
      | some v =>
        cases v with
        | num n =>
          refine ⟨.num n :: ks, ?_, ?_⟩
          · have hkey : promptSortKey (.obj pfs) = .ok (.num n) := by
              simp [promptSortKey, hl]
            rw [List.mapM_cons, hkey, hks]
            rfl
          · rw [List.all_cons]
            rw [show ((keyNum (JVal.num n)).isSome : Bool) = true from rfl, Bool.true_and, hallk]
        | null => simp [hasNumTs, hl] at hp
        | bool b => simp [hasNumTs, hl] at hp
        | str s => simp [hasNumTs, hl] at hp
        | arr xs => simp [hasNumTs, hl] at hp
        | obj gfs => simp [hasNumTs, hl] at hp
    | null => simp [hasNumTs] at hp
    | bool b => simp [hasNumTs] at hp
    | num n => simp [hasNumTs] at hp
    | str s => simp [hasNumTs] at hp
    | arr xs => simp [hasNumTs] at hp

/-- C6 amended: the sorting decision looks only at the FIRST prompt entry.
When every entry is a dict carrying a numeric timestamp (so in particular
the first), the prompts are stably sorted into ascending timestamp order;
when the first entry lacks a timestamp or is not a dict — or there are no
prompts — the arrival order is preserved unchanged.  (When the first entry
carries a timestamp but a later one lacks it, the sort still runs with the
missing key read as 0, as the counterexample shows.) -/
theorem c6_amended_sorting (prompts : List JVal) :
    ((∀ p ∈ prompts, hasNumTs p = true) →
      ∃ ps, sortPrompts prompts = .ok ps ∧ List.Perm ps prompts ∧
        ps.Pairwise (fun a b => keyNumD a ≤ keyNumD b)) ∧
    (noSortCond prompts = true → sortPrompts prompts = .ok prompts) := by
  constructor
  · intro hall
    cases prompts with
    | nil => exact ⟨[], rfl, List.Perm.refl _, List.Pairwise.nil⟩
    | cons p rest =>
      have hp := hall p (List.mem_cons_self p rest)
      have hcond : (isDict p && dictHas p "unixMs") = true := by
        cases p with
        | obj pfs =>
          cases hl : lookupField pfs "unixMs" with
          | none => simp [hasNumTs, hl] at hp
          | some v => simp [isDict, dictHas, objGet, hl]
        | null => simp [hasNumTs] at hp
        | bool b => simp [hasNumTs] at hp
        | num n => simp [hasNumTs] at hp
        | str s => simp [hasNumTs] at hp
        | arr xs => simp [hasNumTs] at hp
      obtain ⟨ks, hks, hallk⟩ := promptKeys_ok (p :: rest) hall
      cases rest with
      | nil =>
        refine ⟨[p], ?_, List.Perm.refl _, List.pairwise_singleton _ _⟩
        simp only [sortPrompts]
        rw [if_pos hcond, hks, except_bind_ok]
        rfl
      | cons q qs =>
        refine ⟨stableSort (fun a b => decide (keyNumD a < keyNumD b)) (p :: q :: qs), ?_,
          stableSort_perm _ _, stableSort_sorted keyNumD _⟩
        simp only [sortPrompts]
        rw [if_pos hcond, hks, except_bind_ok,
          if_neg (by simp [List.length_cons]), if_pos hallk]
        rfl
  · intro h2
    cases prompts with
    | nil => rfl
    | cons p rest =>
      have hcond : (isDict p && dictHas p "unixMs") = false := by
        simp only [noSortCond] at h2
        cases hb : (isDict p && dictHas p "unixMs") with
        | false => rfl
        | true => rw [hb] at h2; exact absurd h2 (by decide)
      simp only [sortPrompts]
      rw [if_neg (by simp [hcond])]

/-- C6 witness: the amended theorem applied to a two-prompt batch where
every entry carries a timestamp (sorted ascending), and to the empty
prompt list (order preserved). -/
theorem c6_witness :
    (∃ ps, sortPrompts [JVal.obj [("unixMs", .num 5)], JVal.obj [("unixMs", .num 3)]] = .ok ps ∧
      List.Perm ps [JVal.obj [("unixMs", .num 5)], JVal.obj [("unixMs", .num 3)]] ∧
      ps.Pairwise (fun a b => keyNumD a ≤ keyNumD b)) ∧
    sortPrompts ([] : List JVal) = .ok [] := by
  constructor
  · refine (c6_amended_sorting _).1 ?_
    intro p hp
    rcases List.mem_cons.mp hp with h1 | h2
    · rw [h1]; rfl
    · rw [List.mem_singleton.mp h2]; rfl
  · exact (c6_amended_sorting []).2 rfl
